import Mathlib

/-!
Shallow embedding of `src/transports/tcp/tcp.c` (nanomsg TCP transport):
the TCP option set (`nn_tcp_optset`, `nn_tcp_optset_setopt`,
`nn_tcp_optset_getopt`) and the option propagator (`nn_tcp_set_options`).

Conventions of the embedding:
- C `int` is modelled as `Int`; byte buffers as `List Nat` (each entry one
  byte); `sizeof (int)` is the constant `sizeofInt = 4`.
- reading `*(int*) optval` is `decodeInt` (little-endian, two's complement);
  the in-memory image of an `int` is `intToBytes4`.
- a C function returning `0 / -EINVAL / -ENOPROTOOPT` returns an `NnResult`;
  in-place mutation of the optset struct is explicit state passing, so
  `nn_tcp_optset_setopt` returns the result code together with the
  (possibly updated) struct.
- `nn_tcp_optset_getopt` returns the result code, the list of bytes that
  `memcpy` wrote into the caller's buffer, and the value stored into
  `*optvallen` (on the error path `memcpy` is not reached and `*optvallen`
  is left as the caller passed it, so the call writes no bytes).
- the `#if defined ...` conditionals of `nn_tcp_set_options` become a
  `Platform` record of capability flags; the calls the propagator makes to
  `nn_usock_setsockopt` become the returned trace (a `List OsSetCall`), in
  program order; the values `nn_epbase_getopt` resolves from the endpoint
  option store become an `EpOptions` record, one field per
  `(level, option)` pair the function queries.
-/

/-- Width in bytes of a native `int`, i.e. `sizeof (int)`. -/
def sizeofInt : Nat := 4

/-- Little-endian value of a byte list, as in reading memory as an unsigned
integer. -/
def leNat (bs : List Nat) : Nat := bs.foldr (fun b acc => b + 256 * acc) 0

/-- Reading a 4-byte buffer as a C `int` (two's complement):
models `*(int*) optval`. -/
def decodeInt (bs : List Nat) : Int :=
  if leNat bs < 2 ^ 31 then (leNat bs : Int) else (leNat bs : Int) - 2 ^ 32

/-- In-memory image of a C `int` value: 4 bytes, little endian,
two's complement. -/
def intToBytes4 (v : Int) : List Nat :=
  [(v % 2 ^ 32).toNat % 256,
   (v % 2 ^ 32).toNat / 2 ^ 8 % 256,
   (v % 2 ^ 32).toNat / 2 ^ 16 % 256,
   (v % 2 ^ 32).toNat / 2 ^ 24 % 256]

/-- Option identifiers dispatched by the `switch (option)` statements:
the four named `NN_TCP_*` cases plus `other` for every identifier that
falls into the `default:` branch. -/
inductive TcpOption where
  | nodelay
  | keepidle
  | keepintvl
  | keepcnt
  | other (id : Int)
deriving DecidableEq, Repr

/-- Return codes of the optset functions: `0`, `-EINVAL`, `-ENOPROTOOPT`. -/
inductive NnResult where
  | ok
  | einval
  | enoprotoopt
deriving DecidableEq, Repr

/-- The mutable state of `struct nn_tcp_optset` (minus the vfptr base). -/
structure TcpOptset where
  nodelay : Int
  keepidle : Int
  keepintvl : Int
  keepcnt : Int
deriving DecidableEq, Repr

/-- Factory `nn_tcp_optset ()`: the default values it stores into a fresh
optset. -/
def nn_tcp_optset : TcpOptset :=
  { nodelay := 0, keepidle := -1, keepintvl := -1, keepcnt := -1 }

/-- Embedding of `nn_tcp_optset_setopt`: rejects a buffer whose length is
not `sizeof (int)`, decodes the value, dispatches on the option id, domain
checks, and stores; returns the result code and the resulting struct
state (unchanged on every error path). -/
def nn_tcp_optset_setopt (optset : TcpOptset) (option : TcpOption)
    (optval : List Nat) : NnResult × TcpOptset :=
  if optval.length ≠ sizeofInt then (.einval, optset)
  else
    let val := decodeInt optval
    match option with
    | .nodelay =>
        if val ≠ 0 ∧ val ≠ 1 then (.einval, optset)
        else (.ok, { optset with nodelay := val })
    | .keepidle =>
        if val ≤ 0 then (.einval, optset)
        else (.ok, { optset with keepidle := val })
    | .keepintvl =>
        if val ≤ 0 then (.einval, optset)
        else (.ok, { optset with keepintvl := val })
    | .keepcnt =>
        if val ≤ 0 then (.einval, optset)
        else (.ok, { optset with keepcnt := val })
    | .other _ => (.enoprotoopt, optset)

/-- Embedding of `nn_tcp_optset_getopt`: dispatches on the option id,
then copies `min (*optvallen, sizeof (int))` bytes of the stored value and
sets `*optvallen = sizeof (int)`. Returns the result code, the bytes
written into the caller's buffer, and the final `*optvallen`. -/
def nn_tcp_optset_getopt (optset : TcpOptset) (option : TcpOption)
    (optvallen : Nat) : NnResult × List Nat × Nat :=
  match option with
  | .nodelay =>
      (.ok, (intToBytes4 optset.nodelay).take
        (if optvallen < sizeofInt then optvallen else sizeofInt), sizeofInt)
  | .keepidle =>
      (.ok, (intToBytes4 optset.keepidle).take
        (if optvallen < sizeofInt then optvallen else sizeofInt), sizeofInt)
  | .keepintvl =>
      (.ok, (intToBytes4 optset.keepintvl).take
        (if optvallen < sizeofInt then optvallen else sizeofInt), sizeofInt)
  | .keepcnt =>
      (.ok, (intToBytes4 optset.keepcnt).take
        (if optvallen < sizeofInt then optvallen else sizeofInt), sizeofInt)
  | .other _ => (.enoprotoopt, [], optvallen)

/-- Compile-time capability flags of `nn_tcp_set_options`: one flag per
`#if defined` block. -/
structure Platform where
  so_keepalive : Bool
  tcp_nodelay : Bool
  tcp_keepidle : Bool
  tcp_keepintvl : Bool
  tcp_keepcnt : Bool
deriving DecidableEq, Repr

/-- Values that `nn_epbase_getopt` resolves from the endpoint option
store, one field per `(level, option)` pair queried by
`nn_tcp_set_options`. -/
structure EpOptions where
  sndbuf : Int
  rcvbuf : Int
  keepalive : Int
  nodelay : Int
  keepidle : Int
  keepintvl : Int
  keepcnt : Int
deriving DecidableEq, Repr

/-- The OS-level option names passed to `nn_usock_setsockopt`. -/
inductive OsOptName where
  | SO_SNDBUF
  | SO_RCVBUF
  | SO_KEEPALIVE
  | TCP_NODELAY
  | TCP_KEEPIDLE
  | TCP_KEEPINTVL
  | TCP_KEEPCNT
deriving DecidableEq, Repr

/-- The OS-level option levels passed to `nn_usock_setsockopt`. -/
inductive OsLevel where
  | SOL_SOCKET
  | IPPROTO_TCP
deriving DecidableEq, Repr

/-- One `nn_usock_setsockopt (sock, level, name, &val, sizeof val)` call. -/
structure OsSetCall where
  level : OsLevel
  name : OsOptName
  value : Int
deriving DecidableEq, Repr

/-- Embedding of `nn_tcp_set_options`: the sequence of
`nn_usock_setsockopt` calls it issues, in program order, given the
platform's capability flags and the values resolved from the endpoint
option store. -/
def nn_tcp_set_options (p : Platform) (source : EpOptions) :
    List OsSetCall :=
  [⟨.SOL_SOCKET, .SO_SNDBUF, source.sndbuf⟩,
   ⟨.SOL_SOCKET, .SO_RCVBUF, source.rcvbuf⟩]
  ++ (if p.so_keepalive then [⟨.SOL_SOCKET, .SO_KEEPALIVE, source.keepalive⟩]
      else [])
  ++ (if p.tcp_nodelay then [⟨.IPPROTO_TCP, .TCP_NODELAY, source.nodelay⟩]
      else [])
  ++ (if p.tcp_keepidle ∧ 0 ≤ source.keepidle then
        [⟨.IPPROTO_TCP, .TCP_KEEPIDLE, source.keepidle⟩]
      else [])
  ++ (if p.tcp_keepintvl ∧ 0 ≤ source.keepintvl then
        [⟨.IPPROTO_TCP, .TCP_KEEPINTVL, source.keepintvl⟩]
      else [])
  ++ (if p.tcp_keepcnt ∧ 0 ≤ source.keepcnt then
        [⟨.IPPROTO_TCP, .TCP_KEEPCNT, source.keepcnt⟩]
      else [])

/-- Reading back the 4-byte image of an `int` yields `v % 2^32` as an
unsigned value. -/
theorem leNat_intToBytes4 (v : Int) :
    (leNat (intToBytes4 v) : Int) = v % 2 ^ 32 := by
  have h0 : (0 : Int) ≤ v % 2 ^ 32 := Int.emod_nonneg v (by norm_num)
  have h1 : v % 2 ^ 32 < 2 ^ 32 := Int.emod_lt_of_pos v (by norm_num)
  simp only [leNat, intToBytes4, List.foldr]
  omega

/-- Encoding then decoding an in-range `int` is the identity. -/
theorem decodeInt_intToBytes4 (v : Int) (hlo : -(2 ^ 31) ≤ v)
    (hhi : v < 2 ^ 31) : decodeInt (intToBytes4 v) = v := by
  have h := leNat_intToBytes4 v
  have hmod : v % 2 ^ 32 = if 0 ≤ v then v else v + 2 ^ 32 := by omega
  unfold decodeInt
  split <;> omega

/-- Membership in a conditional singleton list. -/
theorem mem_ite_singleton {α : Type} (a x : α) (c : Prop) [Decidable c] :
    a ∈ (if c then [x] else []) ↔ c ∧ a = x := by
  split <;> simp_all

/-- A conditional singleton list is a sublist of the singleton. -/
theorem ite_singleton_sublist {α : Type} (c : Prop) [Decidable c] (x : α) :
    List.Sublist (if c then [x] else []) [x] := by
  split
  · exact List.Sublist.refl _
  · exact List.nil_sublist _

/-- C4: with a correctly sized byte argument decoding to `v`,
`setopt` on NODELAY fails with EINVAL exactly when `v ∉ {0, 1}`; on each
of KEEPIDLE, KEEPINTVL, KEEPCNT it fails with EINVAL exactly when
`v ≤ 0` (so an explicit `-1` is rejected) and succeeds for every
positive `v`. -/
theorem setopt_domain_check (s : TcpOptset) (bs : List Nat)
    (h : bs.length = sizeofInt) :
    ((nn_tcp_optset_setopt s .nodelay bs).1 = .einval
      ↔ (decodeInt bs ≠ 0 ∧ decodeInt bs ≠ 1))
  ∧ ((nn_tcp_optset_setopt s .keepidle bs).1 = .einval ↔ decodeInt bs ≤ 0)
  ∧ ((nn_tcp_optset_setopt s .keepintvl bs).1 = .einval ↔ decodeInt bs ≤ 0)
  ∧ ((nn_tcp_optset_setopt s .keepcnt bs).1 = .einval ↔ decodeInt bs ≤ 0)
  ∧ (0 < decodeInt bs →
      (nn_tcp_optset_setopt s .keepidle bs).1 = .ok
      ∧ (nn_tcp_optset_setopt s .keepintvl bs).1 = .ok
      ∧ (nn_tcp_optset_setopt s .keepcnt bs).1 = .ok) := by
  refine ⟨?_, ?_, ?_, ?_, ?_⟩ <;>
    simp only [nn_tcp_optset_setopt, h, ne_eq, not_true_eq_false,
      if_false, ite_not] <;>
    split <;>
    simp_all

/-- C4 witness: explicitly setting the sentinel `-1` on KEEPIDLE fails
with EINVAL, and setting `2` on NODELAY fails with EINVAL. -/
theorem setopt_domain_check_witness :
    (nn_tcp_optset_setopt nn_tcp_optset .keepidle [255, 255, 255, 255]).1
      = .einval
  ∧ (nn_tcp_optset_setopt nn_tcp_optset .nodelay [2, 0, 0, 0]).1
      = .einval :=
  ⟨(setopt_domain_check nn_tcp_optset [255, 255, 255, 255]
      (by decide)).2.1.mpr (by decide),
   (setopt_domain_check nn_tcp_optset [2, 0, 0, 0]
      (by decide)).1.mpr (by decide)⟩

/-- C5: for every option identifier (known or unknown), a byte argument
whose length differs from the native int width makes `setopt` fail with
EINVAL — the length check precedes the identifier check. -/
theorem setopt_length_check (s : TcpOptset) (o : TcpOption)
    (bs : List Nat) (h : bs.length ≠ sizeofInt) :
    (nn_tcp_optset_setopt s o bs).1 = .einval := by
  simp [nn_tcp_optset_setopt, h]

/-- C5 witness: a wrong-length argument on an unknown identifier reports
EINVAL, not ENOPROTOOPT. -/
theorem setopt_length_check_witness :
    (nn_tcp_optset_setopt nn_tcp_optset (.other 99) [1, 0]).1 = .einval :=
  setopt_length_check nn_tcp_optset (.other 99) [1, 0] (by decide)

/-- C6: whenever `getopt` succeeds, it has copied exactly
`min (capacity, sizeof int)` bytes and reports the required size
`sizeof int`, regardless of the capacity. -/
theorem getopt_copy_min (s : TcpOptset) (o : TcpOption) (cap : Nat)
    (h : (nn_tcp_optset_getopt s o cap).1 = .ok) :
    ((nn_tcp_optset_getopt s o cap).2.1).length = min cap sizeofInt
  ∧ (nn_tcp_optset_getopt s o cap).2.2 = sizeofInt := by
  cases o <;>
    simp_all [nn_tcp_optset_getopt, intToBytes4, sizeofInt] <;>
    split_ifs <;>
    omega

/-- C6 witness: a 2-byte destination receives 2 bytes but the required
size is still reported as 4. -/
theorem getopt_copy_min_witness :
    ((nn_tcp_optset_getopt nn_tcp_optset .nodelay 2).2.1).length
      = min 2 sizeofInt
  ∧ (nn_tcp_optset_getopt nn_tcp_optset .nodelay 2).2.2 = sizeofInt :=
  getopt_copy_min nn_tcp_optset .nodelay 2 (by decide)

/-- C8: an identifier outside the four known ones makes `getopt` fail
with ENOPROTOOPT, and makes `setopt` with a correctly sized argument
fail with ENOPROTOOPT. -/
theorem unknown_option_enoprotoopt (s : TcpOptset) (n : Int) (cap : Nat)
    (bs : List Nat) (h : bs.length = sizeofInt) :
    (nn_tcp_optset_getopt s (.other n) cap).1 = .enoprotoopt
  ∧ (nn_tcp_optset_setopt s (.other n) bs).1 = .enoprotoopt := by
  constructor <;> simp [nn_tcp_optset_getopt, nn_tcp_optset_setopt, h]

/-- C8 witness at identifier 42 with a 4-byte argument. -/
theorem unknown_option_enoprotoopt_witness :
    (nn_tcp_optset_getopt nn_tcp_optset (.other 42) 4).1 = .enoprotoopt
  ∧ (nn_tcp_optset_setopt nn_tcp_optset (.other 42) [0, 0, 0, 0]).1
      = .enoprotoopt :=
  unknown_option_enoprotoopt nn_tcp_optset 42 4 [0, 0, 0, 0] (by decide)

/-- Getting a stored value back with sufficient capacity returns its
full 4-byte image. -/
theorem getopt_bytes_full (v : Int) (cap : Nat) (hcap : sizeofInt ≤ cap) :
    (intToBytes4 v).take (if cap < sizeofInt then cap else sizeofInt)
      = intToBytes4 v := by
  have hc : ¬ cap < sizeofInt := by omega
  rw [if_neg hc]
  exact List.take_of_length_le (by simp [intToBytes4, sizeofInt])

/-- C7: a successful `setopt` round-trips through `getopt` with
sufficient capacity — NODELAY for `v ∈ {0, 1}`, and each keep-alive
tuning knob for every positive in-range `v`. -/
theorem setopt_getopt_roundtrip (s : TcpOptset) (v : Int) (cap : Nat)
    (hcap : sizeofInt ≤ cap) :
    ((v = 0 ∨ v = 1) →
      (nn_tcp_optset_setopt s .nodelay (intToBytes4 v)).1 = .ok
      ∧ decodeInt (nn_tcp_optset_getopt
          (nn_tcp_optset_setopt s .nodelay (intToBytes4 v)).2
          .nodelay cap).2.1 = v)
  ∧ (0 < v → v < 2 ^ 31 →
      ((nn_tcp_optset_setopt s .keepidle (intToBytes4 v)).1 = .ok
        ∧ decodeInt (nn_tcp_optset_getopt
            (nn_tcp_optset_setopt s .keepidle (intToBytes4 v)).2
            .keepidle cap).2.1 = v)
      ∧ ((nn_tcp_optset_setopt s .keepintvl (intToBytes4 v)).1 = .ok
        ∧ decodeInt (nn_tcp_optset_getopt
            (nn_tcp_optset_setopt s .keepintvl (intToBytes4 v)).2
            .keepintvl cap).2.1 = v)
      ∧ ((nn_tcp_optset_setopt s .keepcnt (intToBytes4 v)).1 = .ok
        ∧ decodeInt (nn_tcp_optset_getopt
            (nn_tcp_optset_setopt s .keepcnt (intToBytes4 v)).2
            .keepcnt cap).2.1 = v)) := by
  have hlen : ¬ (intToBytes4 v).length ≠ sizeofInt := by
    simp [intToBytes4, sizeofInt]
  have hfull := getopt_bytes_full v cap hcap
  constructor
  · rintro (rfl | rfl)
    · have hd : decodeInt (intToBytes4 0) = 0 := by decide
      simp [nn_tcp_optset_setopt, nn_tcp_optset_getopt, hlen, hd, hfull]
    · have hd : decodeInt (intToBytes4 1) = 1 := by decide
      simp [nn_tcp_optset_setopt, nn_tcp_optset_getopt, hlen, hd, hfull]
  · intro h1 h2
    have hd : decodeInt (intToBytes4 v) = v :=
      decodeInt_intToBytes4 v (by omega) (by omega)
    have hne : ¬ v ≤ 0 := by omega
    refine ⟨?_, ?_, ?_⟩ <;>
      simp [nn_tcp_optset_setopt, nn_tcp_optset_getopt, hlen, hd, hne,
        hfull]

/-- C7 witness at `v = 1` on NODELAY and `v = 7200` on KEEPIDLE, with
capacity 4. -/
theorem setopt_getopt_roundtrip_witness :
    ((nn_tcp_optset_setopt nn_tcp_optset .nodelay (intToBytes4 1)).1 = .ok
      ∧ decodeInt (nn_tcp_optset_getopt
          (nn_tcp_optset_setopt nn_tcp_optset .nodelay (intToBytes4 1)).2
          .nodelay 4).2.1 = 1)
  ∧ ((nn_tcp_optset_setopt nn_tcp_optset .keepidle
        (intToBytes4 7200)).1 = .ok
      ∧ decodeInt (nn_tcp_optset_getopt
          (nn_tcp_optset_setopt nn_tcp_optset .keepidle
            (intToBytes4 7200)).2 .keepidle 4).2.1 = 7200) :=
  ⟨(setopt_getopt_roundtrip nn_tcp_optset 1 4 (by decide)).1
      (Or.inr rfl),
   ((setopt_getopt_roundtrip nn_tcp_optset 7200 4 (by decide)).2
      (by decide) (by decide)).1⟩

/-- C9: the factory stores exactly the defaults `nodelay = 0` and
`keepidle = keepintvl = keepcnt = -1`, and `getopt` on a fresh set with
sufficient capacity reports those values. -/
theorem fresh_optset_defaults (cap : Nat) (hcap : sizeofInt ≤ cap) :
    nn_tcp_optset
      = { nodelay := 0, keepidle := -1, keepintvl := -1, keepcnt := -1 }
  ∧ decodeInt (nn_tcp_optset_getopt nn_tcp_optset .nodelay cap).2.1 = 0
  ∧ decodeInt (nn_tcp_optset_getopt nn_tcp_optset .keepidle cap).2.1 = -1
  ∧ decodeInt
      (nn_tcp_optset_getopt nn_tcp_optset .keepintvl cap).2.1 = -1
  ∧ decodeInt (nn_tcp_optset_getopt nn_tcp_optset .keepcnt cap).2.1 = -1
    := by
  refine ⟨rfl, ?_, ?_, ?_, ?_⟩ <;>
    simp only [nn_tcp_optset_getopt, nn_tcp_optset, getopt_bytes_full _
      cap hcap] <;>
    decide

/-- C9 witness at capacity 4. -/
theorem fresh_optset_defaults_witness :
    nn_tcp_optset
      = { nodelay := 0, keepidle := -1, keepintvl := -1, keepcnt := -1 }
  ∧ decodeInt (nn_tcp_optset_getopt nn_tcp_optset .nodelay 4).2.1 = 0
  ∧ decodeInt (nn_tcp_optset_getopt nn_tcp_optset .keepidle 4).2.1 = -1
  ∧ decodeInt (nn_tcp_optset_getopt nn_tcp_optset .keepintvl 4).2.1 = -1
  ∧ decodeInt (nn_tcp_optset_getopt nn_tcp_optset .keepcnt 4).2.1 = -1 :=
  fresh_optset_defaults 4 (by decide)

/-- C10: a failing `setopt` leaves the whole option set unchanged, and a
successful `setopt` on a given identifier changes exactly the field that
identifier names (to the decoded value) and nothing else. -/
theorem setopt_frame (s : TcpOptset) (o : TcpOption) (bs : List Nat) :
    ((nn_tcp_optset_setopt s o bs).1 ≠ .ok
      → (nn_tcp_optset_setopt s o bs).2 = s)
  ∧ ((nn_tcp_optset_setopt s o bs).1 = .ok →
      (o = .nodelay → (nn_tcp_optset_setopt s o bs).2
        = { s with nodelay := decodeInt bs })
    ∧ (o = .keepidle → (nn_tcp_optset_setopt s o bs).2
        = { s with keepidle := decodeInt bs })
    ∧ (o = .keepintvl → (nn_tcp_optset_setopt s o bs).2
        = { s with keepintvl := decodeInt bs })
    ∧ (o = .keepcnt → (nn_tcp_optset_setopt s o bs).2
        = { s with keepcnt := decodeInt bs })
    ∧ ∀ n, o ≠ .other n) := by
  cases o <;>
    simp only [nn_tcp_optset_setopt] <;>
    split <;>
    simp_all <;>
    split <;>
    simp_all

/-- C10 witness: setting NODELAY to 1 on a fresh set changes only the
`nodelay` field. -/
theorem setopt_frame_witness :
    (nn_tcp_optset_setopt nn_tcp_optset .nodelay [1, 0, 0, 0]).2
      = { nn_tcp_optset with nodelay := decodeInt [1, 0, 0, 0] } :=
  ((setopt_frame nn_tcp_optset .nodelay [1, 0, 0, 0]).2 (by decide)).1
    rfl

/-- C1: the propagator applies options in exactly the fixed order
send-buffer, receive-buffer, keep-alive enable (platform permitting),
nodelay (platform permitting), keepidle, keepintvl, keepcnt: its first
two calls are the two buffer sizes, the sequence of call names is a
sublist of the canonical order (so no call is ever issued out of that
order), and the keep-alive and nodelay calls appear exactly when the
platform exposes those knobs. -/
theorem set_options_order (p : Platform) (src : EpOptions) :
    (nn_tcp_set_options p src).take 2
      = [⟨.SOL_SOCKET, .SO_SNDBUF, src.sndbuf⟩,
         ⟨.SOL_SOCKET, .SO_RCVBUF, src.rcvbuf⟩]
  ∧ List.Sublist ((nn_tcp_set_options p src).map OsSetCall.name)
      [.SO_SNDBUF, .SO_RCVBUF, .SO_KEEPALIVE, .TCP_NODELAY,
       .TCP_KEEPIDLE, .TCP_KEEPINTVL, .TCP_KEEPCNT]
  ∧ (OsOptName.SO_KEEPALIVE
        ∈ (nn_tcp_set_options p src).map OsSetCall.name
      ↔ p.so_keepalive = true)
  ∧ (OsOptName.TCP_NODELAY
        ∈ (nn_tcp_set_options p src).map OsSetCall.name
      ↔ p.tcp_nodelay = true) := by
  by_cases h1 : p.so_keepalive = true <;>
  by_cases h2 : p.tcp_nodelay = true <;>
  by_cases h3 : p.tcp_keepidle = true ∧ 0 ≤ src.keepidle <;>
  by_cases h4 : p.tcp_keepintvl = true ∧ 0 ≤ src.keepintvl <;>
  by_cases h5 : p.tcp_keepcnt = true ∧ 0 ≤ src.keepcnt <;>
    refine ⟨?_, ?_, ?_, ?_⟩ <;>
    simp [nn_tcp_set_options, h1, h2, h3, h4, h5] <;>
    decide

/-- C2: each keep-alive tuning knob is propagated exactly when the
platform exposes it and the resolved value is not the `-1` sentinel,
each independently of the others; the hypotheses record that the store
resolves each knob within its domain `{-1} ∪ ℤ⁺`. -/
theorem keepalive_tuning_iff (p : Platform) (src : EpOptions)
    (hki : src.keepidle = -1 ∨ 0 < src.keepidle)
    (hkv : src.keepintvl = -1 ∨ 0 < src.keepintvl)
    (hkc : src.keepcnt = -1 ∨ 0 < src.keepcnt) :
    (OsOptName.TCP_KEEPIDLE
        ∈ (nn_tcp_set_options p src).map OsSetCall.name
      ↔ p.tcp_keepidle = true ∧ ¬ src.keepidle = -1)
  ∧ (OsOptName.TCP_KEEPINTVL
        ∈ (nn_tcp_set_options p src).map OsSetCall.name
      ↔ p.tcp_keepintvl = true ∧ ¬ src.keepintvl = -1)
  ∧ (OsOptName.TCP_KEEPCNT
        ∈ (nn_tcp_set_options p src).map OsSetCall.name
      ↔ p.tcp_keepcnt = true ∧ ¬ src.keepcnt = -1) := by
  refine ⟨?_, ?_, ?_⟩ <;>
    simp only [nn_tcp_set_options, List.map_append,
      apply_ite (List.map OsSetCall.name), List.map_nil,
      List.map_cons, List.mem_append, mem_ite_singleton] <;>
    simp <;>
    intro h <;>
    omega

/-- C2 witness: platform with every knob, store resolving
`keepidle = -1`, `keepintvl = 10`, `keepcnt = 5`. -/
theorem keepalive_tuning_iff_witness :
    (OsOptName.TCP_KEEPIDLE
        ∈ (nn_tcp_set_options ⟨true, true, true, true, true⟩
            ⟨4096, 8192, 1, 1, -1, 10, 5⟩).map OsSetCall.name
      ↔ (⟨true, true, true, true, true⟩ : Platform).tcp_keepidle = true
          ∧ ¬ (⟨4096, 8192, 1, 1, -1, 10, 5⟩ : EpOptions).keepidle = -1)
  ∧ (OsOptName.TCP_KEEPINTVL
        ∈ (nn_tcp_set_options ⟨true, true, true, true, true⟩
            ⟨4096, 8192, 1, 1, -1, 10, 5⟩).map OsSetCall.name
      ↔ (⟨true, true, true, true, true⟩ : Platform).tcp_keepintvl = true
          ∧ ¬ (⟨4096, 8192, 1, 1, -1, 10, 5⟩ : EpOptions).keepintvl = -1)
  ∧ (OsOptName.TCP_KEEPCNT
        ∈ (nn_tcp_set_options ⟨true, true, true, true, true⟩
            ⟨4096, 8192, 1, 1, -1, 10, 5⟩).map OsSetCall.name
      ↔ (⟨true, true, true, true, true⟩ : Platform).tcp_keepcnt = true
          ∧ ¬ (⟨4096, 8192, 1, 1, -1, 10, 5⟩ : EpOptions).keepcnt = -1) :=
  keepalive_tuning_iff ⟨true, true, true, true, true⟩
    ⟨4096, 8192, 1, 1, -1, 10, 5⟩ (Or.inl rfl) (Or.inr (by decide))
    (Or.inr (by decide))

/-- C3 counterexample: on a platform exposing every knob, the store of
the claim (send-buffer 4096, receive-buffer 8192, nodelay 1, keep-alive
tuning knobs at `-1`) makes the propagator issue FOUR calls — it also
propagates the generic keep-alive enable flag — not three. -/
theorem three_calls_counterexample :
    ((nn_tcp_set_options ⟨true, true, true, true, true⟩
        ⟨4096, 8192, 1, 1, -1, -1, -1⟩).map OsSetCall.name
      = [.SO_SNDBUF, .SO_RCVBUF, .SO_KEEPALIVE, .TCP_NODELAY])
  ∧ ¬ (nn_tcp_set_options ⟨true, true, true, true, true⟩
        ⟨4096, 8192, 1, 1, -1, -1, -1⟩).length = 3 := by
  decide

/-- C3 amended: with that store, on any platform exposing the no-delay
knob, the propagator issues the send-buffer, receive-buffer and nodelay
calls, plus the generic keep-alive enable call exactly when the platform
exposes the keep-alive knob, and issues no call for keepidle. -/
theorem three_calls_amended (p : Platform) (h : p.tcp_nodelay = true) :
    (nn_tcp_set_options p ⟨4096, 8192, 1, 1, -1, -1, -1⟩).map
        OsSetCall.name
      = [.SO_SNDBUF, .SO_RCVBUF]
        ++ (if p.so_keepalive then [.SO_KEEPALIVE] else [])
        ++ [.TCP_NODELAY]
  ∧ ¬ OsOptName.TCP_KEEPIDLE
      ∈ (nn_tcp_set_options p ⟨4096, 8192, 1, 1, -1, -1, -1⟩).map
          OsSetCall.name := by
  by_cases h1 : p.so_keepalive = true <;>
    simp [nn_tcp_set_options, h, h1]

/-- C3 amended witness: the all-knobs platform issues exactly the four
calls and none for keepidle. -/
theorem three_calls_amended_witness :
    (nn_tcp_set_options ⟨true, true, true, true, true⟩
        ⟨4096, 8192, 1, 1, -1, -1, -1⟩).map OsSetCall.name
      = [.SO_SNDBUF, .SO_RCVBUF]
        ++ (if (⟨true, true, true, true, true⟩ : Platform).so_keepalive
            then [.SO_KEEPALIVE] else [])
        ++ [.TCP_NODELAY]
  ∧ ¬ OsOptName.TCP_KEEPIDLE
      ∈ (nn_tcp_set_options ⟨true, true, true, true, true⟩
          ⟨4096, 8192, 1, 1, -1, -1, -1⟩).map OsSetCall.name :=
  three_calls_amended ⟨true, true, true, true, true⟩ rfl
